import Mathlib

/-!
Shallow embedding of the multi-tenant LMS server (drizzle/postgres handlers
under `server/src/handlers`, schema under `server/src/db/schema.ts`).

Modelling conventions:
* Each table is a `List` of row structures inside `DbState`; rows are appended
  in insertion order.  `serial` primary keys are modelled by a fresh-id counter
  (`nextId`); the claims never depend on per-table numbering.
* Timestamps are `Nat`.  `new Date()` / `defaultNow()` are modelled by a `now`
  parameter passed to each handler (the ambient clock at call time).
* A handler returns `Except DbError α × DbState`: the thrown `Error` objects
  become structured `DbError` values, and the state component is the store
  after the call (unchanged when the call fails, since every failing branch
  happens before the single insert, and a failed insert commits nothing).
* Database constraint enforcement (foreign keys, composite uniqueness) is part
  of the insert step of each handler, mirroring postgres behaviour.
-/

namespace LmsApp

inductive CourseStatus
  | draft | published | archived
deriving DecidableEq, Repr

inductive LessonType
  | video | text | quiz | file
deriving DecidableEq, Repr

inductive EnrollmentStatus
  | enrolled | completed | dropped
deriving DecidableEq, Repr

inductive OrganizationRole
  | org_admin
deriving DecidableEq, Repr

inductive LmsRole
  | lms_admin | lms_instructor | lms_student
deriving DecidableEq, Repr

/-- Abstract content of a `Bun.password.hash` result.  Modelled from the spec:
the hashing routine itself (`Bun.password`, a salted slow hash) is not under
`src/`; the model records the salt and the hashed password abstractly, exactly
the data needed so that `verifyPassword p h` succeeds iff `p` is the password
that was hashed (the spec's verify contract).  It stands for the opaque hash
string; no column of type `String` holds the plaintext. -/
structure PasswordHash where
  salt : Nat
  hashedOf : String
deriving DecidableEq, Repr

/-- Modelled from the spec: `Bun.password.hash(password)` with a fresh salt. -/
def hashPassword (salt : Nat) (password : String) : PasswordHash :=
  { salt := salt, hashedOf := password }

/-- Modelled from the spec: `Bun.password.verify(candidate, hash)` — succeeds
exactly when the candidate is the password the hash was derived from. -/
def verifyPassword (candidate : String) (h : PasswordHash) : Bool :=
  candidate == h.hashedOf

/-- Row of `organizations`. -/
structure Organization where
  id : Nat
  name : String
  description : Option String
  created_at : Nat
  updated_at : Nat
deriving DecidableEq, Repr

/-- Row of `lms`. -/
structure LMS where
  id : Nat
  organization_id : Nat
  name : String
  description : Option String
  created_at : Nat
  updated_at : Nat
deriving DecidableEq, Repr

/-- Row of `users`. -/
structure User where
  id : Nat
  organization_id : Nat
  name : String
  email : String
  password_hash : PasswordHash
  created_at : Nat
  updated_at : Nat
deriving DecidableEq, Repr

/-- Row of `courses`.  `duration_hours` is a nullable `numeric(5,2)` column;
its stored content is the number of hundredths (the scale-2 fixed-point value
denoted by the stored decimal string). -/
structure CourseRow where
  id : Nat
  lms_id : Nat
  title : String
  description : Option String
  slug : String
  meta_title : Option String
  meta_description : Option String
  keywords : Option String
  thumbnail_url : Option String
  duration_hours : Option Int
  status : CourseStatus
  created_at : Nat
  updated_at : Nat
deriving DecidableEq, Repr

/-- The API-level `Course` object: as stored, but with `duration_hours`
converted back to a number (`parseFloat` of the stored decimal string). -/
structure Course where
  id : Nat
  lms_id : Nat
  title : String
  description : Option String
  slug : String
  meta_title : Option String
  meta_description : Option String
  keywords : Option String
  thumbnail_url : Option String
  duration_hours : Option ℚ
  status : CourseStatus
  created_at : Nat
  updated_at : Nat
deriving DecidableEq, Repr

/-- Row of `modules`. -/
structure Module where
  id : Nat
  course_id : Nat
  title : String
  description : Option String
  order : Nat
  created_at : Nat
  updated_at : Nat
deriving DecidableEq, Repr

/-- Row of `lessons`. -/
structure Lesson where
  id : Nat
  module_id : Nat
  title : String
  description : Option String
  content : Option String
  type : LessonType
  order : Nat
  created_at : Nat
  updated_at : Nat
deriving DecidableEq, Repr

/-- Row of `user_organization_roles`. -/
structure UserOrganizationRole where
  id : Nat
  user_id : Nat
  organization_id : Nat
  role : OrganizationRole
  created_at : Nat
deriving DecidableEq, Repr

/-- Row of `user_lms_roles`. -/
structure UserLMSRole where
  id : Nat
  user_id : Nat
  lms_id : Nat
  role : LmsRole
  created_at : Nat
deriving DecidableEq, Repr

/-- Row of `course_instructors`. -/
structure CourseInstructor where
  id : Nat
  course_id : Nat
  user_id : Nat
  created_at : Nat
deriving DecidableEq, Repr

/-- Row of `enrollments`. -/
structure Enrollment where
  id : Nat
  user_id : Nat
  course_id : Nat
  status : EnrollmentStatus
  enrollment_date : Nat
  completion_date : Option Nat
  created_at : Nat
  updated_at : Nat
deriving DecidableEq, Repr

/-- The whole relational store. -/
structure DbState where
  organizations : List Organization
  lms : List LMS
  users : List User
  courses : List CourseRow
  modules : List Module
  lessons : List Lesson
  userOrganizationRoles : List UserOrganizationRole
  userLmsRoles : List UserLMSRole
  courseInstructors : List CourseInstructor
  enrollments : List Enrollment
  nextId : Nat
deriving DecidableEq, Repr

def dbEmpty : DbState :=
  { organizations := [], lms := [], users := [], courses := [], modules := []
    lessons := [], userOrganizationRoles := [], userLmsRoles := []
    courseInstructors := [], enrollments := [], nextId := 1 }

/-- Structured content of the errors a handler call can surface.
`notFound entity id` stands for the handler-thrown messages of the form
`"<entity> with id <id> does not exist"` / `"<entity> with id <id> not found"`
raised by an existence lookup before the insert; `alreadyEnrolled` for
`"User <u> is already enrolled in course <c>"`; `userNotInOrg` for
`"User <u> does not belong to organization <o>"`; `fkViolation` /
`uniqueViolation` for the constraint errors postgres raises when an insert
violates a foreign-key / composite-uniqueness constraint of the named table;
`numericOverflow` for a numeric-field-overflow error from a `numeric(5,2)`
column. -/
inductive DbError
  | notFound (entity : String) (id : Nat)
  | alreadyEnrolled (userId : Nat) (courseId : Nat)
  | userNotInOrg (userId : Nat) (orgId : Nat)
  | fkViolation (tbl : String)
  | uniqueViolation (tbl : String)
  | numericOverflow
deriving DecidableEq, Repr

/-- `true` exactly on handler-raised "not found" errors. -/
def DbError.isNotFound : DbError → Bool
  | .notFound _ _ => true
  | _ => false

/-- Round half away from zero, postgres' rounding when a numeric literal is
cast to a fixed scale. -/
def roundHalfAway (q : ℚ) : Int :=
  if 0 ≤ q then ⌊q + 1/2⌋ else -⌊-q + 1/2⌋

/-- Content stored by a `numeric(5,2)` column for the decimal string
`q.toString()`: the value in hundredths, rounded to scale 2, rejected when
more than 5 significant digits remain (postgres numeric-field overflow). -/
def numeric52OfRat (q : ℚ) : Except DbError Int :=
  let m := roundHalfAway (q * 100)
  if m.natAbs ≤ 99999 then .ok m else .error .numericOverflow

/-- `parseFloat` of the decimal string a `numeric(5,2)` column renders for a
stored hundredths content `m`: the exact value `m / 100`. -/
def ratOfNumeric52 (m : Int) : ℚ := (m : ℚ) / 100

/-- Conversion applied by `createCourse` / `getCoursesByLMS` on the way out:
`course.duration_hours ? parseFloat(course.duration_hours) : null` (a stored
decimal string is a non-empty string, hence truthy; only SQL `NULL` maps to
`null`). -/
def courseOfRow (r : CourseRow) : Course :=
  { id := r.id, lms_id := r.lms_id, title := r.title
    description := r.description, slug := r.slug, meta_title := r.meta_title
    meta_description := r.meta_description, keywords := r.keywords
    thumbnail_url := r.thumbnail_url
    duration_hours := r.duration_hours.map ratOfNumeric52
    status := r.status, created_at := r.created_at, updated_at := r.updated_at }

structure CreateLMSInput where
  organization_id : Nat
  name : String
  description : Option String
deriving Repr

structure CreateUserInput where
  organization_id : Nat
  name : String
  email : String
  password : String
deriving Repr

structure CreateCourseInput where
  lms_id : Nat
  title : String
  description : Option String
  slug : String
  meta_title : Option String
  meta_description : Option String
  keywords : Option String
  thumbnail_url : Option String
  duration_hours : Option ℚ
  status : CourseStatus
deriving Repr

structure CreateModuleInput where
  course_id : Nat
  title : String
  description : Option String
  order : Nat
deriving Repr

structure CreateLessonInput where
  module_id : Nat
  title : String
  description : Option String
  content : Option String
  type : LessonType
  order : Nat
deriving Repr

structure CreateEnrollmentInput where
  user_id : Nat
  course_id : Nat
  status : EnrollmentStatus
deriving Repr

structure CreateCourseInstructorInput where
  course_id : Nat
  user_id : Nat
deriving Repr

structure CreateUserOrganizationRoleInput where
  user_id : Nat
  organization_id : Nat
  role : OrganizationRole
deriving Repr

structure CreateUserLMSRoleInput where
  user_id : Nat
  lms_id : Nat
  role : LmsRole
deriving Repr

/-- Input of `updateEnrollment`: `status` / `completion_date` are optional
(`none` = absent from the parsed input, i.e. `undefined`); a present
`completion_date` may itself be `null` (`some none`). -/
structure UpdateEnrollmentInput where
  id : Nat
  status : Option EnrollmentStatus
  completion_date : Option (Option Nat)
deriving Repr

/-- `handlers/create_lms.ts` — `createLMS`: a direct single-row insert with no
existence lookup; a missing `organization_id` surfaces as the foreign-key
constraint violation the database raises. -/
def createLMS (i : CreateLMSInput) (now : Nat) (st : DbState) :
    Except DbError LMS × DbState :=
  if st.organizations.any (fun o => o.id == i.organization_id) then
    let row : LMS := { id := st.nextId, organization_id := i.organization_id
                       name := i.name, description := i.description
                       created_at := now, updated_at := now }
    (.ok row, { st with lms := st.lms ++ [row], nextId := st.nextId + 1 })
  else
    (.error (.fkViolation "lms"), st)

/-- `handlers/create_user.ts` — `createUser`: looks the organization up first
and throws `"Organization with id <id> does not exist"` when absent, hashes
the password, then inserts (subject to the `(email, organization_id)`
uniqueness constraint).  `salt` models the fresh salt `Bun.password.hash`
draws. -/
def createUser (i : CreateUserInput) (salt : Nat) (now : Nat) (st : DbState) :
    Except DbError User × DbState :=
  if st.organizations.any (fun o => o.id == i.organization_id) then
    if st.users.any (fun u => u.email == i.email && u.organization_id == i.organization_id) then
      (.error (.uniqueViolation "users"), st)
    else
      let row : User := { id := st.nextId, organization_id := i.organization_id
                          name := i.name, email := i.email
                          password_hash := hashPassword salt i.password
                          created_at := now, updated_at := now }
      (.ok row, { st with users := st.users ++ [row], nextId := st.nextId + 1 })
  else
    (.error (.notFound "Organization" i.organization_id), st)

/-- `handlers/create_course.ts` — `createCourse`: no existence lookup; builds
the stored value `input.duration_hours ? input.duration_hours.toString() :
null` (JS truthiness: `0` is falsy, hence stored as `NULL`), inserts (subject
to the `lms_id` foreign key and the `(slug, lms_id)` uniqueness constraint),
and converts the stored decimal back to a number on return.
`durationToStored` is the value `createCourse` hands the numeric column:
`input.duration_hours ? input.duration_hours.toString() : null`. -/
def durationToStored : Option ℚ → Except DbError (Option Int)
  | none => .ok none
  | some q => if q = 0 then .ok none else (numeric52OfRat q).map some

/-- See the comment above `durationToStored`. -/
def createCourse (i : CreateCourseInput) (now : Nat) (st : DbState) :
    Except DbError Course × DbState :=
  match durationToStored i.duration_hours with
  | .error e => (.error e, st)
  | .ok dur =>
    if st.lms.any (fun l => l.id == i.lms_id) then
      if st.courses.any (fun c => c.slug == i.slug && c.lms_id == i.lms_id) then
        (.error (.uniqueViolation "courses"), st)
      else
        let row : CourseRow :=
          { id := st.nextId, lms_id := i.lms_id, title := i.title
            description := i.description, slug := i.slug
            meta_title := i.meta_title, meta_description := i.meta_description
            keywords := i.keywords, thumbnail_url := i.thumbnail_url
            duration_hours := dur, status := i.status
            created_at := now, updated_at := now }
        (.ok (courseOfRow row),
         { st with courses := st.courses ++ [row], nextId := st.nextId + 1 })
    else
      (.error (.fkViolation "courses"), st)

/-- `handlers/create_lesson.ts` — `createLesson`: a direct single-row insert
with no existence lookup; a missing `module_id` surfaces as the foreign-key
constraint violation (as `create_lesson.test.ts` expects), and a duplicate
`(module_id, order)` as a uniqueness violation. -/
def createLesson (i : CreateLessonInput) (now : Nat) (st : DbState) :
    Except DbError Lesson × DbState :=
  if st.modules.any (fun m => m.id == i.module_id) then
    if st.lessons.any (fun l => l.module_id == i.module_id && l.order == i.order) then
      (.error (.uniqueViolation "lessons"), st)
    else
      let row : Lesson := { id := st.nextId, module_id := i.module_id
                            title := i.title, description := i.description
                            content := i.content, type := i.type
                            order := i.order, created_at := now, updated_at := now }
      (.ok row, { st with lessons := st.lessons ++ [row], nextId := st.nextId + 1 })
  else
    (.error (.fkViolation "lessons"), st)

/-- `handlers/create_enrollment.ts` — `createEnrollment`: looks up the user
(`"User with ID <id> does not exist"`), then the course, then any existing
`(user_id, course_id)` enrollment (`"User <u> is already enrolled in course
<c>"`), and only then inserts; `enrollment_date` and the timestamps default to
now. -/
def createEnrollment (i : CreateEnrollmentInput) (now : Nat) (st : DbState) :
    Except DbError Enrollment × DbState :=
  if st.users.any (fun u => u.id == i.user_id) then
    if st.courses.any (fun c => c.id == i.course_id) then
      if st.enrollments.any (fun e => e.user_id == i.user_id && e.course_id == i.course_id) then
        (.error (.alreadyEnrolled i.user_id i.course_id), st)
      else
        let row : Enrollment :=
          { id := st.nextId, user_id := i.user_id, course_id := i.course_id
            status := i.status, enrollment_date := now, completion_date := none
            created_at := now, updated_at := now }
        (.ok row, { st with enrollments := st.enrollments ++ [row], nextId := st.nextId + 1 })
    else
      (.error (.notFound "Course" i.course_id), st)
  else
    (.error (.notFound "User" i.user_id), st)

/-- `handlers/get_course_instructors.ts` (companion file) —
`createCourseInstructor`: looks up the course (`"Course with id <id> does not
exist"`), then the user, then inserts subject to the `(course_id, user_id)`
uniqueness constraint. -/
def createCourseInstructor (i : CreateCourseInstructorInput) (now : Nat) (st : DbState) :
    Except DbError CourseInstructor × DbState :=
  if st.courses.any (fun c => c.id == i.course_id) then
    if st.users.any (fun u => u.id == i.user_id) then
      if st.courseInstructors.any (fun r => r.course_id == i.course_id && r.user_id == i.user_id) then
        (.error (.uniqueViolation "course_instructors"), st)
      else
        let row : CourseInstructor := { id := st.nextId, course_id := i.course_id
                                        user_id := i.user_id, created_at := now }
        (.ok row, { st with courseInstructors := st.courseInstructors ++ [row]
                            nextId := st.nextId + 1 })
    else
      (.error (.notFound "User" i.user_id), st)
  else
    (.error (.notFound "Course" i.course_id), st)

/-- `create_user_organization_role.ts` — `createUserOrganizationRole`: looks
up the organization (`"Organization with ID <id> not found"`), then the user,
then rejects a user whose stored `organization_id` differs from the supplied
one (`"User <u> does not belong to organization <o>"`), then inserts subject
to the `(user_id, organization_id, role)` uniqueness constraint.  The user row
consulted is the first row matching the id, as `user[0]` in the source. -/
def createUserOrganizationRole (i : CreateUserOrganizationRoleInput) (now : Nat)
    (st : DbState) : Except DbError UserOrganizationRole × DbState :=
  if st.organizations.any (fun o => o.id == i.organization_id) then
    match st.users.find? (fun u => u.id == i.user_id) with
    | none => (.error (.notFound "User" i.user_id), st)
    | some u =>
      if u.organization_id ≠ i.organization_id then
        (.error (.userNotInOrg i.user_id i.organization_id), st)
      else if st.userOrganizationRoles.any
          (fun r => r.user_id == i.user_id && r.organization_id == i.organization_id && r.role == i.role) then
        (.error (.uniqueViolation "user_organization_roles"), st)
      else
        let row : UserOrganizationRole :=
          { id := st.nextId, user_id := i.user_id
            organization_id := i.organization_id, role := i.role, created_at := now }
        (.ok row, { st with userOrganizationRoles := st.userOrganizationRoles ++ [row]
                            nextId := st.nextId + 1 })
  else
    (.error (.notFound "Organization" i.organization_id), st)

/-- `create_user_lms_role.ts` — `createUserLMSRole`: looks up the user
(`"User with id <id> not found"`), then the LMS instance, then inserts subject
to the `(user_id, lms_id, role)` uniqueness constraint.  No organization
membership check of any kind is performed. -/
def createUserLMSRole (i : CreateUserLMSRoleInput) (now : Nat) (st : DbState) :
    Except DbError UserLMSRole × DbState :=
  if st.users.any (fun u => u.id == i.user_id) then
    if st.lms.any (fun l => l.id == i.lms_id) then
      if st.userLmsRoles.any
          (fun r => r.user_id == i.user_id && r.lms_id == i.lms_id && r.role == i.role) then
        (.error (.uniqueViolation "user_lms_roles"), st)
      else
        let row : UserLMSRole := { id := st.nextId, user_id := i.user_id
                                   lms_id := i.lms_id, role := i.role, created_at := now }
        (.ok row, { st with userLmsRoles := st.userLmsRoles ++ [row]
                            nextId := st.nextId + 1 })
    else
      (.error (.notFound "LMS" i.lms_id), st)
  else
    (.error (.notFound "User" i.user_id), st)

/-- `get_lms_by_organization.ts` — `getLMSByOrganization`: select rows whose
`organization_id` matches; total, never an error. -/
def getLMSByOrganization (organizationId : Nat) (st : DbState) : List LMS :=
  st.lms.filter (fun l => l.organization_id == organizationId)

/-- `get_users_by_organization.ts` — `getUsersByOrganization`. -/
def getUsersByOrganization (organizationId : Nat) (st : DbState) : List User :=
  st.users.filter (fun u => u.organization_id == organizationId)

/-- `get_courses_by_lms.ts` — `getCoursesByLMS`: select by `lms_id`, then map
each row through the stored-decimal-to-number conversion. -/
def getCoursesByLMS (lmsId : Nat) (st : DbState) : List Course :=
  (st.courses.filter (fun c => c.lms_id == lmsId)).map courseOfRow

/-- `get_modules_by_course.ts` — `getModulesByCourse`: select by `course_id`,
ordered ascending by the `order` column. -/
def getModulesByCourse (courseId : Nat) (st : DbState) : List Module :=
  (st.modules.filter (fun m => m.course_id == courseId)).mergeSort
    (fun a b => decide (a.order ≤ b.order))

/-- `get_lessons_by_module.ts` — `getLessonsByModule`: select by `module_id`,
ordered ascending by the `order` column. -/
def getLessonsByModule (moduleId : Nat) (st : DbState) : List Lesson :=
  (st.lessons.filter (fun l => l.module_id == moduleId)).mergeSort
    (fun a b => decide (a.order ≤ b.order))

/-- `get_course_instructors.ts` — `getCourseInstructors`. -/
def getCourseInstructors (courseId : Nat) (st : DbState) : List CourseInstructor :=
  st.courseInstructors.filter (fun r => r.course_id == courseId)

/-- `get_enrollments_by_user.ts` — `getEnrollmentsByUser`. -/
def getEnrollmentsByUser (userId : Nat) (st : DbState) : List Enrollment :=
  st.enrollments.filter (fun e => e.user_id == userId)

/-- `get_enrollments_by_course.ts` — `getEnrollmentsByCourse`. -/
def getEnrollmentsByCourse (courseId : Nat) (st : DbState) : List Enrollment :=
  st.enrollments.filter (fun e => e.course_id == courseId)

/-- The per-row effect of `updateEnrollment`'s `UPDATE ... SET`: fields
present in the input overwrite the column, absent fields are kept, and
`updated_at` is set to the current time. -/
def applyEnrollmentUpdate (i : UpdateEnrollmentInput) (now : Nat) (e : Enrollment) :
    Enrollment :=
  { e with status := i.status.getD e.status
           completion_date := i.completion_date.getD e.completion_date
           updated_at := now }

/-- `handlers/update_enrollment.ts` — `updateEnrollment`: one
`UPDATE ... WHERE id = input.id ... RETURNING` statement (all rows matching
the id are updated; none exist ⟹ nothing changes), then an
`"Enrollment with id <id> not found"` error when the returned row set is
empty. -/
def updateEnrollment (i : UpdateEnrollmentInput) (now : Nat) (st : DbState) :
    Except DbError Enrollment × DbState :=
  let newRows := st.enrollments.map
    (fun e => if e.id = i.id then applyEnrollmentUpdate i now e else e)
  let returned := (st.enrollments.filter (fun e => e.id == i.id)).map
    (applyEnrollmentUpdate i now)
  let st' := { st with enrollments := newRows }
  match returned with
  | [] => (.error (.notFound "Enrollment" i.id), st')
  | e :: _ => (.ok e, st')

/-! ## Helper lemmas -/

/-- In a list whose keys are pairwise distinct, filtering on the key of a
member returns exactly that member. -/
theorem filter_key_singleton {α : Type} (key : α → Nat) :
    ∀ (l : List α) (u : α), u ∈ l → l.Pairwise (fun a b => key a ≠ key b) →
      l.filter (fun a => key a == key u) = [u]
  | [], u, hmem, _ => absurd hmem (List.not_mem_nil u)
  | a :: l, u, hmem, hpw => by
    rcases List.pairwise_cons.mp hpw with ⟨hhead, htail⟩
    rcases List.mem_cons.mp hmem with rfl | hu
    · have : l.filter (fun x => key x == key u) = [] := by
        rw [List.filter_eq_nil_iff]
        intro b hb
        simpa using (hhead b hb).symm
      simpa [List.filter_cons] using this
    · have hne : key a ≠ key u := hhead u hu
      have := filter_key_singleton key l u hu htail
      simp [List.filter_cons, hne, this]

/-- In a list whose keys are pairwise distinct, `find?` on the key of a
member returns that member. -/
theorem find_key_eq {α : Type} (key : α → Nat) (l : List α) (u : α)
    (hmem : u ∈ l) (hpw : l.Pairwise (fun a b => key a ≠ key b)) :
    l.find? (fun a => key a == key u) = some u := by
  induction l with
  | nil => exact absurd hmem (List.not_mem_nil u)
  | cons a l ih =>
    rcases List.pairwise_cons.mp hpw with ⟨hhead, htail⟩
    rcases List.mem_cons.mp hmem with rfl | hu
    · simp [List.find?_cons]
    · have hne : key a ≠ key u := hhead u hu
      simp [List.find?_cons, hne, ih hu htail]

/-! ## Claims -/

/-- C7: for every course id the list returned by `getModulesByCourse` is
sorted in ascending order of the modules' `order` field, and for every module
id the list returned by `getLessonsByModule` is sorted in ascending order of
the lessons' `order` field — for every store, hence regardless of the order in
which the rows were inserted. -/
theorem modules_and_lessons_sorted_by_order (st : DbState) (courseId moduleId : Nat) :
    (getModulesByCourse courseId st).Pairwise (fun a b => a.order ≤ b.order) ∧
    (getLessonsByModule moduleId st).Pairwise (fun a b => a.order ≤ b.order) := by
  constructor
  · unfold getModulesByCourse
    refine List.Pairwise.imp (fun h => of_decide_eq_true h)
      (List.sorted_mergeSort ?_ ?_ _)
    · intro a b c hab hbc
      exact decide_eq_true (Nat.le_trans (of_decide_eq_true hab) (of_decide_eq_true hbc))
    · intro a b
      simpa [Bool.or_eq_true, decide_eq_true_eq] using Nat.le_total a.order b.order
  · unfold getLessonsByModule
    refine List.Pairwise.imp (fun h => of_decide_eq_true h)
      (List.sorted_mergeSort ?_ ?_ _)
    · intro a b c hab hbc
      exact decide_eq_true (Nat.le_trans (of_decide_eq_true hab) (of_decide_eq_true hbc))
    · intro a b
      simpa [Bool.or_eq_true, decide_eq_true_eq] using Nat.le_total a.order b.order

/-- C8: every list-read operation `get<Entities>By<Parent>` is a total
function of the store — it returns normally for every parent id, including
ids with no parent row, and its result is exactly the (possibly empty) list
of children with that parent foreign key (for `getCoursesByLMS`, the stored
rows with that key, converted by `courseOfRow`).  No error value exists in
any of their result types. -/
theorem getBy_returns_children (st : DbState) (pid : Nat) :
    (∀ x, x ∈ getLMSByOrganization pid st ↔ x ∈ st.lms ∧ x.organization_id = pid) ∧
    (∀ x, x ∈ getUsersByOrganization pid st ↔ x ∈ st.users ∧ x.organization_id = pid) ∧
    (∀ x, x ∈ getCoursesByLMS pid st ↔
      ∃ r, r ∈ st.courses ∧ r.lms_id = pid ∧ courseOfRow r = x) ∧
    (∀ x, x ∈ getModulesByCourse pid st ↔ x ∈ st.modules ∧ x.course_id = pid) ∧
    (∀ x, x ∈ getLessonsByModule pid st ↔ x ∈ st.lessons ∧ x.module_id = pid) ∧
    (∀ x, x ∈ getCourseInstructors pid st ↔ x ∈ st.courseInstructors ∧ x.course_id = pid) ∧
    (∀ x, x ∈ getEnrollmentsByUser pid st ↔ x ∈ st.enrollments ∧ x.user_id = pid) ∧
    (∀ x, x ∈ getEnrollmentsByCourse pid st ↔ x ∈ st.enrollments ∧ x.course_id = pid) := by
  refine ⟨?_, ?_, ?_, ?_, ?_, ?_, ?_, ?_⟩ <;> intro x
  · simp [getLMSByOrganization, List.mem_filter]
  · simp [getUsersByOrganization, List.mem_filter]
  · simp only [getCoursesByLMS, List.mem_map, List.mem_filter, beq_iff_eq]
    constructor
    · rintro ⟨r, ⟨hr, hk⟩, he⟩; exact ⟨r, hr, hk, he⟩
    · rintro ⟨r, hr, hk, he⟩; exact ⟨r, ⟨hr, hk⟩, he⟩
  · simp [getModulesByCourse, List.mem_mergeSort, List.mem_filter]
  · simp [getLessonsByModule, List.mem_mergeSort, List.mem_filter]
  · simp [getCourseInstructors, List.mem_filter]
  · simp [getEnrollmentsByUser, List.mem_filter]
  · simp [getEnrollmentsByCourse, List.mem_filter]

/-- C9: `updateEnrollment` fails if and only if no enrollment row has the
given id; the failure is precisely the "Enrollment with id … not found" error
(no other error can be produced), and on that failure the store is left
unchanged — the `UPDATE` matched no row, so no row is modified and no
`updated_at` advances. -/
theorem updateEnrollment_notFound_iff (i : UpdateEnrollmentInput) (now : Nat) (st : DbState) :
    ((updateEnrollment i now st).1 = .error (.notFound "Enrollment" i.id) ↔
      ∀ e ∈ st.enrollments, e.id ≠ i.id) ∧
    (∀ err, (updateEnrollment i now st).1 = .error err →
      err = .notFound "Enrollment" i.id) ∧
    ((∀ e ∈ st.enrollments, e.id ≠ i.id) → (updateEnrollment i now st).2 = st) := by
  by_cases hc : ∀ e ∈ st.enrollments, e.id ≠ i.id
  · have hnil : st.enrollments.filter (fun e => e.id == i.id) = [] := by
      rw [List.filter_eq_nil_iff]
      intro e he
      simpa using hc e he
    have hmap : st.enrollments.map
        (fun e => if e.id = i.id then applyEnrollmentUpdate i now e else e)
        = st.enrollments :=
      (List.map_congr_left (fun e he => by simp [hc e he])).trans (List.map_id _)
    refine ⟨?_, ?_, ?_⟩
    · simp only [updateEnrollment, hnil]
      simpa using hc
    · intro err herr
      exact (by simpa [updateEnrollment, hnil] using herr : _ = err).symm
    · intro _
      simp [updateEnrollment, hnil, hmap]
  · push_neg at hc
    obtain ⟨e, he, heid⟩ := hc
    rcases hE : st.enrollments.filter (fun x => x.id == i.id) with _ | ⟨e₀, rest⟩
    · rw [List.filter_eq_nil_iff] at hE
      exact absurd heid (by simpa using hE e he)
    · refine ⟨?_, ?_, ?_⟩
      · simp only [updateEnrollment, hE]
        constructor
        · intro h
          exact absurd h (by simp)
        · intro h
          exact absurd heid (h e he)
      · intro err herr
        simp [updateEnrollment, hE] at herr
      · intro h
        exact absurd heid (h e he)

/-- Witness for C9 at a concrete store: the empty store has no enrollment row
with id 5, so `updateEnrollment` fails with the not-found error and leaves
the store unchanged. -/
theorem updateEnrollment_notFound_iff_witness :
    ((updateEnrollment ⟨5, none, none⟩ 7 dbEmpty).1
        = .error (.notFound "Enrollment" 5) ↔
      ∀ e ∈ dbEmpty.enrollments, e.id ≠ 5) ∧
    (∀ err, (updateEnrollment ⟨5, none, none⟩ 7 dbEmpty).1 = .error err →
      err = .notFound "Enrollment" 5) ∧
    ((∀ e ∈ dbEmpty.enrollments, e.id ≠ 5) →
      (updateEnrollment ⟨5, none, none⟩ 7 dbEmpty).2 = dbEmpty) :=
  updateEnrollment_notFound_iff ⟨5, none, none⟩ 7 dbEmpty

/-- C3: frame conditions of `updateEnrollment` on an existing row: with only
`{id, status}` present the row's `completion_date` is unchanged; with only
`{id, completion_date}` present the row's `status` is unchanged; in both
cases `id`, `user_id`, `course_id`, `enrollment_date` and `created_at` are
unchanged and `updated_at` is strictly greater after the update than before
(`now` being the clock at call time, strictly later than the row's stored
`updated_at`). -/
theorem updateEnrollment_frame (st : DbState) (now : Nat) (e : Enrollment)
    (s : EnrollmentStatus) (cd : Option Nat)
    (hmem : e ∈ st.enrollments)
    (hpw : st.enrollments.Pairwise (fun a b => a.id ≠ b.id))
    (hlt : e.updated_at < now) :
    (∃ e₁, (updateEnrollment ⟨e.id, some s, none⟩ now st).1 = .ok e₁ ∧
      e₁.status = s ∧ e₁.completion_date = e.completion_date ∧
      e₁.id = e.id ∧ e₁.user_id = e.user_id ∧ e₁.course_id = e.course_id ∧
      e₁.enrollment_date = e.enrollment_date ∧ e₁.created_at = e.created_at ∧
      e.updated_at < e₁.updated_at) ∧
    (∃ e₂, (updateEnrollment ⟨e.id, none, some cd⟩ now st).1 = .ok e₂ ∧
      e₂.completion_date = cd ∧ e₂.status = e.status ∧
      e₂.id = e.id ∧ e₂.user_id = e.user_id ∧ e₂.course_id = e.course_id ∧
      e₂.enrollment_date = e.enrollment_date ∧ e₂.created_at = e.created_at ∧
      e.updated_at < e₂.updated_at) := by
  have hfilter : st.enrollments.filter (fun a => a.id == e.id) = [e] :=
    filter_key_singleton (fun a => a.id) st.enrollments e hmem hpw
  constructor
  · refine ⟨applyEnrollmentUpdate ⟨e.id, some s, none⟩ now e, ?_,
      by simp [applyEnrollmentUpdate], by simp [applyEnrollmentUpdate],
      by simp [applyEnrollmentUpdate], by simp [applyEnrollmentUpdate],
      by simp [applyEnrollmentUpdate], by simp [applyEnrollmentUpdate],
      by simp [applyEnrollmentUpdate], by simpa [applyEnrollmentUpdate] using hlt⟩
    simp [updateEnrollment, hfilter]
  · refine ⟨applyEnrollmentUpdate ⟨e.id, none, some cd⟩ now e, ?_,
      by simp [applyEnrollmentUpdate], by simp [applyEnrollmentUpdate],
      by simp [applyEnrollmentUpdate], by simp [applyEnrollmentUpdate],
      by simp [applyEnrollmentUpdate], by simp [applyEnrollmentUpdate],
      by simp [applyEnrollmentUpdate], by simpa [applyEnrollmentUpdate] using hlt⟩
    simp [updateEnrollment, hfilter]

/-- Concrete enrollment row used by witnesses. -/
def enrollW : Enrollment :=
  { id := 5, user_id := 2, course_id := 3, status := .enrolled
    enrollment_date := 10, completion_date := none, created_at := 10, updated_at := 10 }

/-- Concrete store holding exactly `enrollW`. -/
def stEnroll : DbState := { dbEmpty with enrollments := [enrollW] }

/-- Witness for C3 at a concrete store: updating enrollment 5 at time 11 with
only a status (resp. only a completion date) shows every frame condition at a
concrete input. -/
theorem updateEnrollment_frame_witness :
    (∃ e₁, (updateEnrollment ⟨enrollW.id, some .completed, none⟩ 11 stEnroll).1 = .ok e₁ ∧
      e₁.status = .completed ∧ e₁.completion_date = enrollW.completion_date ∧
      e₁.id = enrollW.id ∧ e₁.user_id = enrollW.user_id ∧ e₁.course_id = enrollW.course_id ∧
      e₁.enrollment_date = enrollW.enrollment_date ∧ e₁.created_at = enrollW.created_at ∧
      enrollW.updated_at < e₁.updated_at) ∧
    (∃ e₂, (updateEnrollment ⟨enrollW.id, none, some (some 11)⟩ 11 stEnroll).1 = .ok e₂ ∧
      e₂.completion_date = some 11 ∧ e₂.status = enrollW.status ∧
      e₂.id = enrollW.id ∧ e₂.user_id = enrollW.user_id ∧ e₂.course_id = enrollW.course_id ∧
      e₂.enrollment_date = enrollW.enrollment_date ∧ e₂.created_at = enrollW.created_at ∧
      enrollW.updated_at < e₂.updated_at) :=
  updateEnrollment_frame stEnroll 11 enrollW .completed (some 11)
    (by simp [stEnroll]) (by simp [stEnroll]) (by decide)

/-- C4: if an enrollment row with the given `(user_id, course_id)` pair
already exists, `createEnrollment` fails with the "already enrolled" error
raised by the pre-check and the store is returned unchanged (no row
inserted); in particular a second call with the pair of a first successful
call fails that way.  (The user/course existence hypotheses of the first part
reflect the checks that run before the duplicate pre-check; they hold in any
store satisfying the enrollment foreign keys, and automatically after a
successful first call.) -/
theorem createEnrollment_already_enrolled (i : CreateEnrollmentInput) (now now' : Nat)
    (st : DbState) :
    ((∃ u ∈ st.users, u.id = i.user_id) → (∃ c ∈ st.courses, c.id = i.course_id) →
      (∃ r ∈ st.enrollments, r.user_id = i.user_id ∧ r.course_id = i.course_id) →
      createEnrollment i now st = (.error (.alreadyEnrolled i.user_id i.course_id), st)) ∧
    (∀ e st', createEnrollment i now st = (.ok e, st') →
      ∀ i₂ : CreateEnrollmentInput, i₂.user_id = i.user_id → i₂.course_id = i.course_id →
        createEnrollment i₂ now' st' = (.error (.alreadyEnrolled i₂.user_id i₂.course_id), st')) := by
  constructor
  · rintro ⟨u, hu, hui⟩ ⟨c, hcm, hci⟩ ⟨r, hr, hru, hrc⟩
    have h1 : st.users.any (fun u => u.id == i.user_id) = true := by
      simp only [List.any_eq_true, beq_iff_eq]
      exact ⟨u, hu, hui⟩
    have h2 : st.courses.any (fun c => c.id == i.course_id) = true := by
      simp only [List.any_eq_true, beq_iff_eq]
      exact ⟨c, hcm, hci⟩
    have h3 : st.enrollments.any
        (fun e => e.user_id == i.user_id && e.course_id == i.course_id) = true := by
      simp only [List.any_eq_true, Bool.and_eq_true, beq_iff_eq]
      exact ⟨r, hr, hru, hrc⟩
    simp [createEnrollment, h1, h2, h3]
  · intro e st' hok i₂ hu2 hc2
    unfold createEnrollment at hok
    split at hok
    case isFalse => simp at hok
    case isTrue h1 =>
      split at hok
      case isFalse => simp at hok
      case isTrue h2 =>
        split at hok
        case isTrue => simp at hok
        case isFalse h3 =>
          simp only [Prod.mk.injEq, Except.ok.injEq] at hok
          obtain ⟨hrow, hst⟩ := hok
          subst hst
          have h1' : st.users.any (fun u => u.id == i₂.user_id) = true := by
            rw [hu2]; exact h1
          have h2' : st.courses.any (fun c => c.id == i₂.course_id) = true := by
            rw [hc2]; exact h2
          have h3' : (st.enrollments ++
              [({ id := st.nextId, user_id := i.user_id, course_id := i.course_id
                  status := i.status, enrollment_date := now, completion_date := none
                  created_at := now, updated_at := now } : Enrollment)]).any
              (fun e => e.user_id == i₂.user_id && e.course_id == i₂.course_id) = true := by
            simp [List.any_append, hu2, hc2]
          simp [createEnrollment, h1', h2', h3']

/-- Concrete user row used by witnesses. -/
def userA : User :=
  { id := 2, organization_id := 1, name := "Ann", email := "ann@example.test"
    password_hash := hashPassword 7 "hunter2pass", created_at := 0, updated_at := 0 }

/-- Concrete course row used by witnesses. -/
def courseRowA : CourseRow :=
  { id := 3, lms_id := 4, title := "Intro", description := none, slug := "intro"
    meta_title := none, meta_description := none, keywords := none
    thumbnail_url := none, duration_hours := none, status := .draft
    created_at := 0, updated_at := 0 }

/-- Store with one user and one course and no enrollments. -/
def stUC : DbState := { dbEmpty with users := [userA], courses := [courseRowA], nextId := 5 }

/-- `stUC` after the first successful enrollment of user 2 in course 3. -/
def stDup : DbState := { stUC with enrollments := [enrollW], nextId := 6 }

/-- Witness for C4 at concrete inputs: enrolling user 2 in course 3 succeeds
once, and the repeated call fails with the "already enrolled" error leaving
the store unchanged. -/
theorem createEnrollment_already_enrolled_witness :
    createEnrollment ⟨2, 3, .enrolled⟩ 10 stUC = (.ok enrollW, stDup) ∧
    createEnrollment ⟨2, 3, .enrolled⟩ 11 stDup
      = (.error (.alreadyEnrolled 2 3), stDup) := by
  have h1 : createEnrollment ⟨2, 3, .enrolled⟩ 10 stUC = (.ok enrollW, stDup) := by rfl
  exact ⟨h1, (createEnrollment_already_enrolled ⟨2, 3, .enrolled⟩ 10 11 stUC).2
    enrollW stDup h1 ⟨2, 3, .enrolled⟩ rfl rfl⟩

/-- C10: `createUserLMSRole` performs no organization-membership check: for
every existing user and every existing LMS instance — nothing relates the
user's `organization_id` to the LMS's — the call succeeds and appends exactly
the one role row, subject only to the `(user_id, lms_id, role)` uniqueness
constraint (in contrast to `createUserOrganizationRole`, which rejects a
cross-organization assignment; see the C6 theorem). -/
theorem createUserLMSRole_no_org_check (i : CreateUserLMSRoleInput) (now : Nat)
    (st : DbState)
    (huser : ∃ u ∈ st.users, u.id = i.user_id)
    (hlms : ∃ l ∈ st.lms, l.id = i.lms_id)
    (hdup : ∀ r ∈ st.userLmsRoles,
      ¬(r.user_id = i.user_id ∧ r.lms_id = i.lms_id ∧ r.role = i.role)) :
    ∃ row st', createUserLMSRole i now st = (.ok row, st') ∧
      row.user_id = i.user_id ∧ row.lms_id = i.lms_id ∧ row.role = i.role ∧
      st'.userLmsRoles = st.userLmsRoles ++ [row] ∧
      st'.users = st.users ∧ st'.lms = st.lms := by
  obtain ⟨u, hu, hui⟩ := huser
  obtain ⟨l, hl, hli⟩ := hlms
  have h1 : st.users.any (fun u => u.id == i.user_id) = true := by
    simp only [List.any_eq_true, beq_iff_eq]
    exact ⟨u, hu, hui⟩
  have h2 : st.lms.any (fun l => l.id == i.lms_id) = true := by
    simp only [List.any_eq_true, beq_iff_eq]
    exact ⟨l, hl, hli⟩
  have h3 : st.userLmsRoles.any
      (fun r => r.user_id == i.user_id && r.lms_id == i.lms_id && r.role == i.role)
      = false := by
    simp only [List.any_eq_false, Bool.and_eq_true, beq_iff_eq, not_and]
    intro r hr hab hc
    exact hdup r hr ⟨hab.1, hab.2, hc⟩
  have heq : createUserLMSRole i now st =
      (.ok { id := st.nextId, user_id := i.user_id, lms_id := i.lms_id
             role := i.role, created_at := now },
       { st with
          userLmsRoles := st.userLmsRoles ++
            [{ id := st.nextId, user_id := i.user_id, lms_id := i.lms_id
               role := i.role, created_at := now }]
          nextId := st.nextId + 1 }) := by
    simp [createUserLMSRole, h1, h2, h3]
  exact ⟨_, _, heq, rfl, rfl, rfl, rfl, rfl, rfl⟩

/-- LMS instance belonging to organization 10 (a different organization from
`userA`'s, which is 1): used to witness that `createUserLMSRole` accepts a
cross-organization assignment. -/
def lmsB : LMS :=
  { id := 4, organization_id := 10, name := "Other Org LMS", description := none
    created_at := 0, updated_at := 0 }

/-- Store with user 2 (organization 1) and LMS 4 (organization 10). -/
def stCross : DbState := { dbEmpty with users := [userA], lms := [lmsB], nextId := 8 }

/-- Witness for C10 at a concrete cross-organization input: user 2 belongs to
organization 1 while LMS 4 belongs to organization 10, and the call still
succeeds and inserts the role row. -/
theorem createUserLMSRole_no_org_check_witness :
    ∃ row st', createUserLMSRole ⟨2, 4, .lms_student⟩ 9 stCross = (.ok row, st') ∧
      row.user_id = 2 ∧ row.lms_id = 4 ∧ row.role = .lms_student ∧
      st'.userLmsRoles = stCross.userLmsRoles ++ [row] ∧
      st'.users = stCross.users ∧ st'.lms = stCross.lms :=
  createUserLMSRole_no_org_check ⟨2, 4, .lms_student⟩ 9 stCross
    (by decide) (by decide) (by decide)

/-- C5: for a valid `createUser` input with an existing organization (and no
conflicting `(email, organization_id)` row), the created row's
`password_hash` is the salted hash of the input password: verifying the
original password against it succeeds and verifying any other string fails.
The `User` row (and the returned value, which is that row) carries the
password only through `password_hash`; its remaining fields are the id,
timestamps and the non-password input fields, so the plaintext is not stored
in any field.  The hash function itself is modelled from the spec
(`Bun.password.hash` is not under `src/`). -/
theorem createUser_password_hashed (i : CreateUserInput) (salt now : Nat) (st : DbState)
    (horg : ∃ o ∈ st.organizations, o.id = i.organization_id)
    (huniq : ∀ u ∈ st.users, ¬(u.email = i.email ∧ u.organization_id = i.organization_id)) :
    ∃ u st', createUser i salt now st = (.ok u, st') ∧
      u ∈ st'.users ∧
      u.password_hash = hashPassword salt i.password ∧
      verifyPassword i.password u.password_hash = true ∧
      (∀ q : String, q ≠ i.password → verifyPassword q u.password_hash = false) ∧
      u.name = i.name ∧ u.email = i.email ∧ u.organization_id = i.organization_id := by
  obtain ⟨o, ho, hoi⟩ := horg
  have h1 : st.organizations.any (fun o => o.id == i.organization_id) = true := by
    simp only [List.any_eq_true, beq_iff_eq]
    exact ⟨o, ho, hoi⟩
  have h2 : st.users.any
      (fun u => u.email == i.email && u.organization_id == i.organization_id) = false := by
    simp only [List.any_eq_false, Bool.and_eq_true, beq_iff_eq, not_and]
    intro u hu ha hb
    exact huniq u hu ⟨ha, hb⟩
  have heq : createUser i salt now st =
      (.ok { id := st.nextId, organization_id := i.organization_id, name := i.name
             email := i.email, password_hash := hashPassword salt i.password
             created_at := now, updated_at := now },
       { st with
          users := st.users ++
            [{ id := st.nextId, organization_id := i.organization_id, name := i.name
               email := i.email, password_hash := hashPassword salt i.password
               created_at := now, updated_at := now }]
          nextId := st.nextId + 1 }) := by
    simp [createUser, h1, h2]
  refine ⟨_, _, heq, by simp, rfl, by simp [verifyPassword, hashPassword], ?_, rfl, rfl, rfl⟩
  intro q hq
  simp [verifyPassword, hashPassword, hq]

/-- Concrete organization row (id 1) used by witnesses. -/
def orgA : Organization :=
  { id := 1, name := "Acme", description := none, created_at := 0, updated_at := 0 }

/-- Store with just organization 1. -/
def stOrg : DbState := { dbEmpty with organizations := [orgA], nextId := 2 }

/-- Witness for C5 at a concrete input: creating a user under organization 1
yields a row whose hash verifies the original password and rejects another
string. -/
theorem createUser_password_hashed_witness :
    ∃ u st', createUser ⟨1, "Ann", "ann@acme.test", "correct horse"⟩ 7 3 stOrg
        = (.ok u, st') ∧
      u ∈ st'.users ∧
      u.password_hash = hashPassword 7 "correct horse" ∧
      verifyPassword "correct horse" u.password_hash = true ∧
      (∀ q : String, q ≠ "correct horse" → verifyPassword q u.password_hash = false) ∧
      u.name = "Ann" ∧ u.email = "ann@acme.test" ∧ u.organization_id = 1 :=
  createUser_password_hashed ⟨1, "Ann", "ann@acme.test", "correct horse"⟩ 7 3 stOrg
    (by decide) (by decide)

/-- C6: `createUserOrganizationRole` on a user whose stored `organization_id`
differs from the supplied one fails with the "does not belong to
organization" error and inserts no row (the store is returned unchanged); and
whenever it succeeds, the supplied organization exists, the target user
exists with exactly the supplied `organization_id`, and exactly one role row
is appended. -/
theorem createUserOrgRole_requires_same_org (i : CreateUserOrganizationRoleInput)
    (now : Nat) (st : DbState) :
    (∀ u, u ∈ st.users → u.id = i.user_id → u.organization_id ≠ i.organization_id →
      st.users.Pairwise (fun a b => a.id ≠ b.id) →
      (∃ o ∈ st.organizations, o.id = i.organization_id) →
      createUserOrganizationRole i now st
        = (.error (.userNotInOrg i.user_id i.organization_id), st)) ∧
    (∀ r st', createUserOrganizationRole i now st = (.ok r, st') →
      (∃ o ∈ st.organizations, o.id = i.organization_id) ∧
      (∃ u ∈ st.users, u.id = i.user_id ∧ u.organization_id = i.organization_id) ∧
      st'.userOrganizationRoles = st.userOrganizationRoles ++ [r]) := by
  constructor
  · rintro u hu hui hne hpw ⟨o, ho, hoi⟩
    have h1 : st.organizations.any (fun o => o.id == i.organization_id) = true := by
      simp only [List.any_eq_true, beq_iff_eq]
      exact ⟨o, ho, hoi⟩
    have hfind : st.users.find? (fun a => a.id == i.user_id) = some u := by
      rw [← hui]
      exact find_key_eq (fun a => a.id) st.users u hu hpw
    simp [createUserOrganizationRole, h1, hfind, hne]
  · intro r st' hok
    unfold createUserOrganizationRole at hok
    split at hok
    case isFalse => simp at hok
    case isTrue h1 =>
      split at hok
      next hfind => simp at hok
      next u hfind =>
        split at hok
        next hne => simp at hok
        next hne =>
          split at hok
          next hdup => simp at hok
          next hdup =>
            simp only [Prod.mk.injEq, Except.ok.injEq] at hok
            obtain ⟨hrow, hst⟩ := hok
            subst hst
            refine ⟨?_, ?_, ?_⟩
            · simpa [List.any_eq_true] using h1
            · have hmem := List.mem_of_find?_eq_some hfind
              have hid : u.id = i.user_id := by
                have := List.find?_some hfind
                simpa using this
              exact ⟨u, hmem, hid, not_not.mp hne⟩
            · rw [← hrow]

/-- Organization row with id 10 used to witness the cross-organization
rejection. -/
def orgB : Organization :=
  { id := 10, name := "Globex", description := none, created_at := 0, updated_at := 0 }

/-- Store with organization 10 and user 2 (who belongs to organization 1). -/
def stC6 : DbState := { dbEmpty with organizations := [orgB], users := [userA], nextId := 9 }

/-- Store with organization 1 and user 2 (who belongs to organization 1). -/
def stC6b : DbState := { dbEmpty with organizations := [orgA], users := [userA], nextId := 9 }

/-- Witness for C6 at concrete inputs: assigning user 2 (organization 1) a
role in organization 10 fails with the membership error and changes nothing,
while assigning in the user's own organization 1 succeeds and appends one
row. -/
theorem createUserOrgRole_requires_same_org_witness :
    createUserOrganizationRole ⟨2, 10, .org_admin⟩ 4 stC6
      = (.error (.userNotInOrg 2 10), stC6) ∧
    ((∃ o ∈ stC6b.organizations, o.id = 1) ∧
      (∃ u ∈ stC6b.users, u.id = 2 ∧ u.organization_id = 1) ∧
      ({ stC6b with
          userOrganizationRoles :=
            [{ id := 9, user_id := 2, organization_id := 1, role := .org_admin
               created_at := 4 }]
          nextId := 10 } : DbState).userOrganizationRoles
        = stC6b.userOrganizationRoles ++
          [{ id := 9, user_id := 2, organization_id := 1, role := .org_admin
             created_at := 4 }]) := by
  constructor
  · exact (createUserOrgRole_requires_same_org ⟨2, 10, .org_admin⟩ 4 stC6).1
      userA (by decide) (by decide) (by decide) (by decide) (by decide)
  · exact (createUserOrgRole_requires_same_org ⟨2, 1, .org_admin⟩ 4 stC6b).2
      { id := 9, user_id := 2, organization_id := 1, role := .org_admin, created_at := 4 }
      _ (by rfl)

/-- C1 counterexample: `createLMS` performs no existence lookup before its
insert — called on the empty store with a non-existent `organization_id`, it
fails with the store's foreign-key constraint violation, which is not a
handler-raised "not found" error (and its counterpart in the sources is the
error `create_lesson.test.ts` and the `createCourse` test expect:
`/foreign key constraint/i`, not a message naming the id and entity type). -/
theorem createLMS_missing_parent_not_notFound :
    (createLMS ⟨1, "Acme Training", none⟩ 0 dbEmpty).1
        = .error (.fkViolation "lms") ∧
    DbError.isNotFound (.fkViolation "lms") = false ∧
    (createLMS ⟨1, "Acme Training", none⟩ 0 dbEmpty).2 = dbEmpty :=
  ⟨rfl, rfl, rfl⟩

/-- C1 (amended): of the create handlers taking a parent foreign key, exactly
`createUser`, `createEnrollment`, `createCourseInstructor`,
`createUserOrganizationRole` and `createUserLMSRole` issue an existence
lookup before the insert and fail with a "not found" error naming the missing
id and entity type when a referenced parent is absent (store unchanged);
`createLMS`, `createCourse` and `createLesson` insert directly, so a missing
parent surfaces as the store's foreign-key constraint violation instead
(`createModule` has only a placeholder implementation in the sources and is
excluded). -/
theorem create_parent_checks (st : DbState) (now salt : Nat)
    (iu : CreateUserInput) (ie : CreateEnrollmentInput)
    (ici : CreateCourseInstructorInput) (ior : CreateUserOrganizationRoleInput)
    (ilr : CreateUserLMSRoleInput)
    (il : CreateLMSInput) (ic : CreateCourseInput) (ils : CreateLessonInput) :
    ((∀ o ∈ st.organizations, o.id ≠ iu.organization_id) →
      createUser iu salt now st
        = (.error (.notFound "Organization" iu.organization_id), st)) ∧
    ((∀ u ∈ st.users, u.id ≠ ie.user_id) →
      createEnrollment ie now st = (.error (.notFound "User" ie.user_id), st)) ∧
    ((∃ u ∈ st.users, u.id = ie.user_id) → (∀ c ∈ st.courses, c.id ≠ ie.course_id) →
      createEnrollment ie now st = (.error (.notFound "Course" ie.course_id), st)) ∧
    ((∀ c ∈ st.courses, c.id ≠ ici.course_id) →
      createCourseInstructor ici now st
        = (.error (.notFound "Course" ici.course_id), st)) ∧
    ((∃ c ∈ st.courses, c.id = ici.course_id) → (∀ u ∈ st.users, u.id ≠ ici.user_id) →
      createCourseInstructor ici now st
        = (.error (.notFound "User" ici.user_id), st)) ∧
    ((∀ o ∈ st.organizations, o.id ≠ ior.organization_id) →
      createUserOrganizationRole ior now st
        = (.error (.notFound "Organization" ior.organization_id), st)) ∧
    ((∃ o ∈ st.organizations, o.id = ior.organization_id) →
      (∀ u ∈ st.users, u.id ≠ ior.user_id) →
      createUserOrganizationRole ior now st
        = (.error (.notFound "User" ior.user_id), st)) ∧
    ((∀ u ∈ st.users, u.id ≠ ilr.user_id) →
      createUserLMSRole ilr now st = (.error (.notFound "User" ilr.user_id), st)) ∧
    ((∃ u ∈ st.users, u.id = ilr.user_id) → (∀ l ∈ st.lms, l.id ≠ ilr.lms_id) →
      createUserLMSRole ilr now st = (.error (.notFound "LMS" ilr.lms_id), st)) ∧
    ((∀ o ∈ st.organizations, o.id ≠ il.organization_id) →
      createLMS il now st = (.error (.fkViolation "lms"), st)) ∧
    ((∀ l ∈ st.lms, l.id ≠ ic.lms_id) → ic.duration_hours = none →
      createCourse ic now st = (.error (.fkViolation "courses"), st)) ∧
    ((∀ m ∈ st.modules, m.id ≠ ils.module_id) →
      createLesson ils now st = (.error (.fkViolation "lessons"), st)) := by
  have anyF : ∀ {α : Type} (key : α → Nat) (l : List α) (k : Nat),
      (∀ a ∈ l, key a ≠ k) → (l.any (fun a => key a == k)) = false := by
    intro α key l k h
    simp only [List.any_eq_false, beq_iff_eq]
    exact h
  have anyT : ∀ {α : Type} (key : α → Nat) (l : List α) (k : Nat),
      (∃ a ∈ l, key a = k) → (l.any (fun a => key a == k)) = true := by
    intro α key l k h
    simp only [List.any_eq_true, beq_iff_eq]
    exact h
  refine ⟨?_, ?_, ?_, ?_, ?_, ?_, ?_, ?_, ?_, ?_, ?_, ?_⟩
  · intro h
    have h1 : (st.organizations.any (fun o => o.id == iu.organization_id)) = false :=
      anyF (fun o : Organization => o.id) _ _ h
    simp [createUser, h1]
  · intro h
    have h1 : (st.users.any (fun u => u.id == ie.user_id)) = false :=
      anyF (fun u : User => u.id) _ _ h
    simp [createEnrollment, h1]
  · intro hu h
    have h1 : (st.users.any (fun u => u.id == ie.user_id)) = true :=
      anyT (fun u : User => u.id) _ _ hu
    have h2 : (st.courses.any (fun c => c.id == ie.course_id)) = false :=
      anyF (fun c : CourseRow => c.id) _ _ h
    simp [createEnrollment, h1, h2]
  · intro h
    have h1 : (st.courses.any (fun c => c.id == ici.course_id)) = false :=
      anyF (fun c : CourseRow => c.id) _ _ h
    simp [createCourseInstructor, h1]
  · intro hc h
    have h1 : (st.courses.any (fun c => c.id == ici.course_id)) = true :=
      anyT (fun c : CourseRow => c.id) _ _ hc
    have h2 : (st.users.any (fun u => u.id == ici.user_id)) = false :=
      anyF (fun u : User => u.id) _ _ h
    simp [createCourseInstructor, h1, h2]
  · intro h
    have h1 : (st.organizations.any (fun o => o.id == ior.organization_id)) = false :=
      anyF (fun o : Organization => o.id) _ _ h
    simp [createUserOrganizationRole, h1]
  · intro ho h
    have h1 : (st.organizations.any (fun o => o.id == ior.organization_id)) = true :=
      anyT (fun o : Organization => o.id) _ _ ho
    have h2 : st.users.find? (fun u => u.id == ior.user_id) = none := by
      rw [List.find?_eq_none]
      intro u hu
      simpa using h u hu
    simp [createUserOrganizationRole, h1, h2]
  · intro h
    have h1 : (st.users.any (fun u => u.id == ilr.user_id)) = false :=
      anyF (fun u : User => u.id) _ _ h
    simp [createUserLMSRole, h1]
  · intro hu h
    have h1 : (st.users.any (fun u => u.id == ilr.user_id)) = true :=
      anyT (fun u : User => u.id) _ _ hu
    have h2 : (st.lms.any (fun l => l.id == ilr.lms_id)) = false :=
      anyF (fun l : LMS => l.id) _ _ h
    simp [createUserLMSRole, h1, h2]
  · intro h
    have h1 : (st.organizations.any (fun o => o.id == il.organization_id)) = false :=
      anyF (fun o : Organization => o.id) _ _ h
    simp [createLMS, h1]
  · intro h hdur
    have h1 : (st.lms.any (fun l => l.id == ic.lms_id)) = false :=
      anyF (fun l : LMS => l.id) _ _ h
    simp [createCourse, durationToStored, hdur, h1]
  · intro h
    have h1 : (st.modules.any (fun m => m.id == ils.module_id)) = false :=
      anyF (fun m : Module => m.id) _ _ h
    simp [createLesson, h1]

/-- Store holding organization 1, user 2 and course 3: concrete inputs with
parent id 99 miss, and present parents let the later lookups be reached. -/
def stW : DbState :=
  { dbEmpty with organizations := [orgA], users := [userA], courses := [courseRowA]
                 nextId := 20 }

/-- Witness for the amended C1, exercising every hypothesis of the theorem on
the concrete store `stW` (missing parents use id 99). -/
theorem create_parent_checks_witness :
    createUser ⟨99, "Bo", "bo@x.test", "pw123456"⟩ 7 1 stW
      = (.error (.notFound "Organization" 99), stW) ∧
    createEnrollment ⟨99, 3, .enrolled⟩ 1 stW
      = (.error (.notFound "User" 99), stW) ∧
    createEnrollment ⟨2, 99, .enrolled⟩ 1 stW
      = (.error (.notFound "Course" 99), stW) ∧
    createCourseInstructor ⟨99, 2⟩ 1 stW
      = (.error (.notFound "Course" 99), stW) ∧
    createCourseInstructor ⟨3, 99⟩ 1 stW
      = (.error (.notFound "User" 99), stW) ∧
    createUserOrganizationRole ⟨2, 99, .org_admin⟩ 1 stW
      = (.error (.notFound "Organization" 99), stW) ∧
    createUserOrganizationRole ⟨99, 1, .org_admin⟩ 1 stW
      = (.error (.notFound "User" 99), stW) ∧
    createUserLMSRole ⟨99, 4, .lms_admin⟩ 1 stW
      = (.error (.notFound "User" 99), stW) ∧
    createUserLMSRole ⟨2, 99, .lms_admin⟩ 1 stW
      = (.error (.notFound "LMS" 99), stW) ∧
    createLMS ⟨99, "L", none⟩ 1 stW = (.error (.fkViolation "lms"), stW) ∧
    createCourse ⟨99, "T", none, "t", none, none, none, none, none, .draft⟩ 1 stW
      = (.error (.fkViolation "courses"), stW) ∧
    createLesson ⟨99, "L1", none, none, .text, 1⟩ 1 stW
      = (.error (.fkViolation "lessons"), stW) := by
  refine ⟨?_, ?_, ?_, ?_, ?_, ?_, ?_, ?_, ?_, ?_, ?_, ?_⟩
  · exact (create_parent_checks stW 1 7 ⟨99, "Bo", "bo@x.test", "pw123456"⟩
      ⟨99, 3, .enrolled⟩ ⟨99, 2⟩ ⟨2, 99, .org_admin⟩ ⟨99, 4, .lms_admin⟩
      ⟨99, "L", none⟩ ⟨99, "T", none, "t", none, none, none, none, none, .draft⟩
      ⟨99, "L1", none, none, .text, 1⟩).1 (by decide)
  · exact (create_parent_checks stW 1 7 ⟨99, "Bo", "bo@x.test", "pw123456"⟩
      ⟨99, 3, .enrolled⟩ ⟨99, 2⟩ ⟨2, 99, .org_admin⟩ ⟨99, 4, .lms_admin⟩
      ⟨99, "L", none⟩ ⟨99, "T", none, "t", none, none, none, none, none, .draft⟩
      ⟨99, "L1", none, none, .text, 1⟩).2.1 (by decide)
  · exact (create_parent_checks stW 1 7 ⟨99, "Bo", "bo@x.test", "pw123456"⟩
      ⟨2, 99, .enrolled⟩ ⟨99, 2⟩ ⟨2, 99, .org_admin⟩ ⟨99, 4, .lms_admin⟩
      ⟨99, "L", none⟩ ⟨99, "T", none, "t", none, none, none, none, none, .draft⟩
      ⟨99, "L1", none, none, .text, 1⟩).2.2.1 (by decide) (by decide)
  · exact (create_parent_checks stW 1 7 ⟨99, "Bo", "bo@x.test", "pw123456"⟩
      ⟨99, 3, .enrolled⟩ ⟨99, 2⟩ ⟨2, 99, .org_admin⟩ ⟨99, 4, .lms_admin⟩
      ⟨99, "L", none⟩ ⟨99, "T", none, "t", none, none, none, none, none, .draft⟩
      ⟨99, "L1", none, none, .text, 1⟩).2.2.2.1 (by decide)
  · exact (create_parent_checks stW 1 7 ⟨99, "Bo", "bo@x.test", "pw123456"⟩
      ⟨99, 3, .enrolled⟩ ⟨3, 99⟩ ⟨2, 99, .org_admin⟩ ⟨99, 4, .lms_admin⟩
      ⟨99, "L", none⟩ ⟨99, "T", none, "t", none, none, none, none, none, .draft⟩
      ⟨99, "L1", none, none, .text, 1⟩).2.2.2.2.1 (by decide) (by decide)
  · exact (create_parent_checks stW 1 7 ⟨99, "Bo", "bo@x.test", "pw123456"⟩
      ⟨99, 3, .enrolled⟩ ⟨99, 2⟩ ⟨2, 99, .org_admin⟩ ⟨99, 4, .lms_admin⟩
      ⟨99, "L", none⟩ ⟨99, "T", none, "t", none, none, none, none, none, .draft⟩
      ⟨99, "L1", none, none, .text, 1⟩).2.2.2.2.2.1 (by decide)
  · exact (create_parent_checks stW 1 7 ⟨99, "Bo", "bo@x.test", "pw123456"⟩
      ⟨99, 3, .enrolled⟩ ⟨99, 2⟩ ⟨99, 1, .org_admin⟩ ⟨99, 4, .lms_admin⟩
      ⟨99, "L", none⟩ ⟨99, "T", none, "t", none, none, none, none, none, .draft⟩
      ⟨99, "L1", none, none, .text, 1⟩).2.2.2.2.2.2.1 (by decide) (by decide)
  · exact (create_parent_checks stW 1 7 ⟨99, "Bo", "bo@x.test", "pw123456"⟩
      ⟨99, 3, .enrolled⟩ ⟨99, 2⟩ ⟨2, 99, .org_admin⟩ ⟨99, 4, .lms_admin⟩
      ⟨99, "L", none⟩ ⟨99, "T", none, "t", none, none, none, none, none, .draft⟩
      ⟨99, "L1", none, none, .text, 1⟩).2.2.2.2.2.2.2.1 (by decide)
  · exact (create_parent_checks stW 1 7 ⟨99, "Bo", "bo@x.test", "pw123456"⟩
      ⟨99, 3, .enrolled⟩ ⟨99, 2⟩ ⟨2, 99, .org_admin⟩ ⟨2, 99, .lms_admin⟩
      ⟨99, "L", none⟩ ⟨99, "T", none, "t", none, none, none, none, none, .draft⟩
      ⟨99, "L1", none, none, .text, 1⟩).2.2.2.2.2.2.2.2.1 (by decide) (by decide)
  · exact (create_parent_checks stW 1 7 ⟨99, "Bo", "bo@x.test", "pw123456"⟩
      ⟨99, 3, .enrolled⟩ ⟨99, 2⟩ ⟨2, 99, .org_admin⟩ ⟨99, 4, .lms_admin⟩
      ⟨99, "L", none⟩ ⟨99, "T", none, "t", none, none, none, none, none, .draft⟩
      ⟨99, "L1", none, none, .text, 1⟩).2.2.2.2.2.2.2.2.2.1 (by decide)
  · exact (create_parent_checks stW 1 7 ⟨99, "Bo", "bo@x.test", "pw123456"⟩
      ⟨99, 3, .enrolled⟩ ⟨99, 2⟩ ⟨2, 99, .org_admin⟩ ⟨99, 4, .lms_admin⟩
      ⟨99, "L", none⟩ ⟨99, "T", none, "t", none, none, none, none, none, .draft⟩
      ⟨99, "L1", none, none, .text, 1⟩).2.2.2.2.2.2.2.2.2.2.1 (by decide) rfl
  · exact (create_parent_checks stW 1 7 ⟨99, "Bo", "bo@x.test", "pw123456"⟩
      ⟨99, 3, .enrolled⟩ ⟨99, 2⟩ ⟨2, 99, .org_admin⟩ ⟨99, 4, .lms_admin⟩
      ⟨99, "L", none⟩ ⟨99, "T", none, "t", none, none, none, none, none, .draft⟩
      ⟨99, "L1", none, none, .text, 1⟩).2.2.2.2.2.2.2.2.2.2.2 (by decide)

/-- `roundHalfAway` is the identity on integers. -/
theorem roundHalfAway_intCast (n : ℤ) : roundHalfAway (n : ℚ) = n := by
  unfold roundHalfAway
  have hhalf : ⌊(1 / 2 : ℚ)⌋ = 0 := by
    rw [Int.floor_eq_iff]
    norm_num
  split
  next h =>
    rw [add_comm, Int.floor_add_int, hhalf, zero_add]
  next h =>
    rw [show -(n : ℚ) = ((-n : ℤ) : ℚ) by push_cast; ring, add_comm,
      Int.floor_add_int, hhalf, zero_add, neg_neg]

/-- For a rational that is a whole number of hundredths, the `numeric(5,2)`
storage content is the exact hundredths integer (when within precision), and
loading it back yields the original value. -/
theorem numeric52_roundtrip (d : ℚ) (hden : (d * 100).den = 1) :
    numeric52OfRat d
      = (if (d * 100).num.natAbs ≤ 99999 then .ok (d * 100).num
         else .error .numericOverflow) ∧
    ratOfNumeric52 (d * 100).num = d := by
  have hq : ((d * 100).num : ℚ) = d * 100 := Rat.coe_int_num_of_den_eq_one hden
  constructor
  · unfold numeric52OfRat
    have hR : roundHalfAway (d * 100) = (d * 100).num := by
      conv_lhs => rw [← hq]
      exact roundHalfAway_intCast _
    simp only [hR]
  · unfold ratOfNumeric52
    rw [hq]
    field_simp

/-- C2: whenever `createCourse` succeeds on an input whose `duration_hours`
is a positive number with at most 2 decimal places (`(d * 100).den = 1`), the
returned `Course` carries `duration_hours` numerically equal to the input —
the value round-trips exactly through the scale-2 decimal storage content —
and the stored row keeps loading back to that exact value through
`getCoursesByLMS` in any later store still containing it; a `null` input
`duration_hours` is stored and returned as `null`. -/
theorem createCourse_duration_roundtrip (i : CreateCourseInput) (now : Nat)
    (st : DbState) (c : Course) (st' : DbState)
    (hok : createCourse i now st = (.ok c, st')) :
    (∀ d : ℚ, i.duration_hours = some d → 0 < d → (d * 100).den = 1 →
      c.duration_hours = some d ∧
      ∃ r, r ∈ st'.courses ∧ r.id = c.id ∧ r.lms_id = i.lms_id ∧
        ∀ st₂ : DbState, r ∈ st₂.courses →
          ∃ c', c' ∈ getCoursesByLMS i.lms_id st₂ ∧ c'.id = c.id ∧
            c'.duration_hours = some d) ∧
    (i.duration_hours = none →
      c.duration_hours = none ∧
      ∃ r, r ∈ st'.courses ∧ r.id = c.id ∧ r.lms_id = i.lms_id ∧
        ∀ st₂ : DbState, r ∈ st₂.courses →
          ∃ c', c' ∈ getCoursesByLMS i.lms_id st₂ ∧ c'.id = c.id ∧
            c'.duration_hours = none) := by
  unfold createCourse at hok
  split at hok
  next e hD => simp at hok
  next dur hD =>
    split at hok
    case isFalse hfk => simp at hok
    case isTrue hfk =>
      split at hok
      case isTrue => simp at hok
      case isFalse hdup =>
        simp only [Prod.mk.injEq, Except.ok.injEq] at hok
        obtain ⟨hc, hst⟩ := hok
        subst hst
        subst hc
        constructor
        · intro d hd hpos hden
          have hne0 : d ≠ 0 := ne_of_gt hpos
          rw [hd] at hD
          simp only [durationToStored, hne0, ite_false, if_false, if_neg hne0] at hD
          obtain ⟨hnum, hload⟩ := numeric52_roundtrip d hden
          by_cases hb : (d * 100).num.natAbs ≤ 99999
          · rw [hnum, if_pos hb] at hD
            simp only [Except.map, Except.ok.injEq] at hD
            subst hD
            refine ⟨by simp [courseOfRow, hload], ?_⟩
            refine ⟨_, List.mem_append_right _ (List.mem_singleton_self _), rfl, rfl, ?_⟩
            intro st₂ hr
            refine ⟨_, ?_, rfl, by simp [courseOfRow, hload]⟩
            unfold getCoursesByLMS
            exact List.mem_map_of_mem courseOfRow (List.mem_filter.mpr ⟨hr, by simp⟩)
          · rw [hnum, if_neg hb] at hD
            simp [Except.map] at hD
        · intro hd
          rw [hd] at hD
          simp only [durationToStored, Except.ok.injEq] at hD
          subst hD
          refine ⟨by simp [courseOfRow], ?_⟩
          refine ⟨_, List.mem_append_right _ (List.mem_singleton_self _), rfl, rfl, ?_⟩
          intro st₂ hr
          refine ⟨_, ?_, rfl, by simp [courseOfRow]⟩
          unfold getCoursesByLMS
          exact List.mem_map_of_mem courseOfRow (List.mem_filter.mpr ⟨hr, by simp⟩)

/-- Store with just LMS 4. -/
def stL : DbState := { dbEmpty with lms := [lmsB], nextId := 3 }

/-- Input creating course "T" with duration 10.5 under LMS 4. -/
def courseInW : CreateCourseInput :=
  { lms_id := 4, title := "T", description := none, slug := "t"
    meta_title := none, meta_description := none, keywords := none
    thumbnail_url := none, duration_hours := some (21 / 2 : ℚ), status := .draft }

/-- Same input with a `null` duration. -/
def courseInW0 : CreateCourseInput := { courseInW with duration_hours := none }

/-- The stored row for `courseInW` (hundredths content 1050 = "10.50"). -/
def courseRowW : CourseRow :=
  { id := 3, lms_id := 4, title := "T", description := none, slug := "t"
    meta_title := none, meta_description := none, keywords := none
    thumbnail_url := none, duration_hours := some 1050, status := .draft
    created_at := 1, updated_at := 1 }

/-- The stored row for `courseInW0`. -/
def courseRowW0 : CourseRow := { courseRowW with duration_hours := none }

/-- The `Course` object returned for `courseInW`. -/
def courseW : Course := courseOfRow courseRowW

/-- The `Course` object returned for `courseInW0`. -/
def courseW0 : Course := courseOfRow courseRowW0

/-- `stL` after inserting `courseRowW`. -/
def stLa : DbState := { stL with courses := [courseRowW], nextId := 4 }

/-- `stL` after inserting `courseRowW0`. -/
def stLb : DbState := { stL with courses := [courseRowW0], nextId := 4 }

/-- Witness for C2 at concrete inputs: duration 10.5 round-trips exactly
(stored content 1050 hundredths) and a `null` duration stays `null`. -/
theorem createCourse_duration_roundtrip_witness :
    (courseW.duration_hours = some (21 / 2 : ℚ) ∧
      ∃ r, r ∈ stLa.courses ∧ r.id = courseW.id ∧ r.lms_id = 4 ∧
        ∀ st₂ : DbState, r ∈ st₂.courses →
          ∃ c', c' ∈ getCoursesByLMS 4 st₂ ∧ c'.id = courseW.id ∧
            c'.duration_hours = some (21 / 2 : ℚ)) ∧
    (courseW0.duration_hours = none ∧
      ∃ r, r ∈ stLb.courses ∧ r.id = courseW0.id ∧ r.lms_id = 4 ∧
        ∀ st₂ : DbState, r ∈ st₂.courses →
          ∃ c', c' ∈ getCoursesByLMS 4 st₂ ∧ c'.id = courseW0.id ∧
            c'.duration_hours = none) := by
  have hne : (21 / 2 : ℚ) ≠ 0 := by norm_num
  have h0 : (21 / 2 : ℚ) * 100 = ((1050 : ℤ) : ℚ) := by norm_num
  have h1 : numeric52OfRat (21 / 2 : ℚ) = .ok 1050 := by
    unfold numeric52OfRat
    rw [h0, roundHalfAway_intCast]
    rfl
  have h2 : durationToStored (some (21 / 2 : ℚ)) = .ok (some 1050) := by
    simp [durationToStored, hne, h1, Except.map]
  have hok1 : createCourse courseInW 1 stL = (.ok courseW, stLa) := by
    unfold createCourse
    rw [show courseInW.duration_hours = some (21 / 2 : ℚ) from rfl, h2]
    rfl
  have hden : ((21 / 2 : ℚ) * 100).den = 1 := by
    rw [h0]
    exact Rat.den_intCast 1050
  exact ⟨(createCourse_duration_roundtrip courseInW 1 stL courseW stLa hok1).1
      (21 / 2) rfl (by norm_num) hden,
    (createCourse_duration_roundtrip courseInW0 1 stL courseW0 stLb (by rfl)).2 rfl⟩

end LmsApp
